import Mathlib

/-!
# Verification of the cirun-agent runner-fleet agent

Shallow embedding of the core data model and operations of the cirun-agent
repository (Rust), together with theorems settling the specification claims.

Conventions of the embedding:
* Rust machine integers (`u32`, `u64`) are modelled as `Nat` with explicit
  `% 2 ^ 64` (resp. byte extraction) wherever overflow or byte layout matters.
* Fallible Rust code returning `Result` is modelled with `Except`.
* Externally observable effects (HTTP calls to the backend, file creation and
  deletion) are modelled by explicit event traces / state records, with the
  outcome of each external call supplied by an oracle parameter.
* The host platform is little-endian (both deployment targets, Apple Silicon
  macOS and x86-64 Linux, are little-endian), so `to_ne_bytes` on `u32` is
  modelled as little-endian byte extraction.
-/

namespace CirunAgent

/-- `TemplateConfig` from `src/main.rs`: the hash key for template identity.
`cpu`, `memory`, `disk` are `u32` in the source; modelled as `Nat` (the byte
extraction used in hashing takes the low 32 bits explicitly). -/
structure TemplateConfig where
  image : String
  registry : Option String
  organization : Option String
  cpu : Nat
  memory : Nat
  disk : Nat
  os : String
deriving DecidableEq

/-! ## Rust `DefaultHasher` (SipHash-1-3 with zero keys)

`generate_template_name` in `src/lume/pull.rs` hashes the non-shape fields
with `std::collections::hash_map::DefaultHasher`, which is SipHash-1-3 with
both keys zero.  We embed the byte-level semantics exactly:
* `Hash for String` feeds the UTF-8 bytes of the string followed by a single
  `0xFF` separator byte;
* `Hash for u32` feeds the four native-endian (little-endian) bytes;
* `finish` is SipHash-1-3 finalization (length byte in the top of the last
  word, `v2 ^= 0xFF`, three finalization rounds). -/

/-- UTF-8 encoding of a single scalar value (as Rust's `str::as_bytes`). -/
def utf8EncodeChar (c : Char) : List Nat :=
  let n := c.toNat
  if n < 0x80 then [n]
  else if n < 0x800 then [0xC0 + n / 64, 0x80 + n % 64]
  else if n < 0x10000 then [0xE0 + n / 4096, 0x80 + n / 64 % 64, 0x80 + n % 64]
  else [0xF0 + n / 262144, 0x80 + n / 4096 % 64, 0x80 + n / 64 % 64, 0x80 + n % 64]

/-- UTF-8 bytes of a string. -/
def utf8Bytes (s : String) : List Nat :=
  s.data.foldr (fun c acc => utf8EncodeChar c ++ acc) []

/-- The four SipHash state words (each kept `< 2 ^ 64`). -/
structure SipState where
  v0 : Nat
  v1 : Nat
  v2 : Nat
  v3 : Nat

/-- 64-bit wrap-around. -/
def wrap64 (n : Nat) : Nat := n % 2 ^ 64

/-- 64-bit left rotation (argument assumed `< 2 ^ 64`). -/
def rotl64 (r n : Nat) : Nat := (n <<< r) % 2 ^ 64 + n >>> (64 - r)

/-- One SipHash round (`SIPROUND`). -/
def sipRound (s : SipState) : SipState :=
  let v0 := wrap64 (s.v0 + s.v1)
  let v1 := rotl64 13 s.v1
  let v1 := v1 ^^^ v0
  let v0 := rotl64 32 v0
  let v2 := wrap64 (s.v2 + s.v3)
  let v3 := rotl64 16 s.v3
  let v3 := v3 ^^^ v2
  let v0 := wrap64 (v0 + v3)
  let v3 := rotl64 21 v3
  let v3 := v3 ^^^ v0
  let v2 := wrap64 (v2 + v1)
  let v1 := rotl64 17 v1
  let v1 := v1 ^^^ v2
  let v2 := rotl64 32 v2
  ⟨v0, v1, v2, v3⟩

/-- Compress one 64-bit message word (SipHash-1-3: one round per word). -/
def sipCompress (s : SipState) (m : Nat) : SipState :=
  let s1 : SipState := ⟨s.v0, s.v1, s.v2, s.v3 ^^^ m⟩
  let s2 := sipRound s1
  ⟨s2.v0 ^^^ m, s2.v1, s2.v2, s2.v3⟩

/-- Little-endian word value of a byte list. -/
def leWord (bs : List Nat) : Nat := bs.foldr (fun b acc => b % 256 + 256 * acc) 0

/-- Consume all full 8-byte words of the stream; return the state and the
remaining tail bytes (fewer than 8). -/
def sipBlocks : SipState → List Nat → SipState × List Nat
  | s, b0 :: b1 :: b2 :: b3 :: b4 :: b5 :: b6 :: b7 :: rest =>
      sipBlocks (sipCompress s (leWord [b0, b1, b2, b3, b4, b5, b6, b7])) rest
  | s, rest => (s, rest)

/-- SipHash-1-3 of a byte stream with keys `k0 = k1 = 0`, exactly as
`DefaultHasher::new()` followed by `write`s of the stream and `finish`. -/
def sipHash13 (bytes : List Nat) : Nat :=
  let s0 : SipState :=
    ⟨0x736F6D6570736575, 0x646F72616E646F6D, 0x6C7967656E657261, 0x7465646279746573⟩
  let st := sipBlocks s0 bytes
  let b := bytes.length % 256 * 2 ^ 56 + leWord st.2
  let s1 := sipCompress st.1 b
  let s2 : SipState := ⟨s1.v0, s1.v1, s1.v2 ^^^ 0xFF, s1.v3⟩
  let s3 := sipRound (sipRound (sipRound s2))
  s3.v0 ^^^ s3.v1 ^^^ s3.v2 ^^^ s3.v3

/-- Little-endian bytes of a `u32` value (`to_ne_bytes` on a little-endian
host); the low 32 bits of the `Nat` are used. -/
def le4 (n : Nat) : List Nat := [n % 256, n / 256 % 256, n / 256 ^ 2 % 256, n / 256 ^ 3 % 256]

/-- The byte stream fed to the hasher by `generate_template_name`
(`src/lume/pull.rs:409-423`): `registry.unwrap_or("default")`,
`organization.unwrap_or("default")`, `os` (each as string bytes plus the
`0xFF` separator), then `cpu`, `memory`, `disk` as `u32` bytes. -/
def configHashStream (c : TemplateConfig) : List Nat :=
  utf8Bytes (c.registry.getD "default") ++ [0xFF]
    ++ utf8Bytes (c.organization.getD "default") ++ [0xFF]
    ++ utf8Bytes c.os ++ [0xFF]
    ++ le4 c.cpu ++ le4 c.memory ++ le4 c.disk

/-! ## Decimal rendering (Rust `format!("{}") on an unsigned integer) -/

/-- The character of one decimal digit (`d < 10`). -/
def digitCh (d : Nat) : Char := Char.ofNat (48 + d)

/-- Decimal digit characters of `n`, most significant first (fuel-indexed;
`fuel = n + 1` always suffices). -/
def natDigits : Nat → Nat → List Char
  | 0, _ => []
  | fuel + 1, n => if n < 10 then [digitCh n] else natDigits fuel (n / 10) ++ [digitCh (n % 10)]

/-- Decimal string of `n`, as Rust's `Display` for unsigned integers. -/
def natDecimal (n : Nat) : String := ⟨natDigits (n + 1) n⟩

/-- `format!("{:04}", n)`: decimal rendering left-padded with `'0'` to at
least four characters. -/
def pad4 (n : Nat) : String :=
  ⟨List.replicate (4 - (natDigits (n + 1) n).length) '0' ++ natDigits (n + 1) n⟩

/-- `image_name.replace(['/', '.'], "-")` from `generate_template_name`. -/
def sanitizeImage (s : String) : String :=
  ⟨s.data.map fun ch => if ch = '/' ∨ ch = '.' then '-' else ch⟩

/-- `generate_template_name` from `src/lume/pull.rs:395-431`:
split the image at `':'` into name and tag (`"latest"` when absent), sanitize
the name, hash the non-shape fields, and format
`cirun-template-{image}-{tag}-{cpu}-{mem}-{hash:04}` with the hash reduced
`% 10000`. -/
def generate_template_name (config : TemplateConfig) : String :=
  let imageParts := config.image.splitOn ":"
  let imageName := imageParts.headD ""
  let imageTag :=
    match imageParts with
    | _ :: t :: _ => t
    | _ => "latest"
  let sanitizedImage := sanitizeImage imageName
  let configHash := sipHash13 (configHashStream config) % 10000
  "cirun-template-" ++ sanitizedImage ++ "-" ++ imageTag ++ "-"
    ++ natDecimal config.cpu ++ "-" ++ natDecimal config.memory ++ "-" ++ pad4 configHash

/-! ## Guest-OS classification and backend data model -/

/-- `str::contains` on character lists: does the second list contain the
first as a contiguous substring? -/
def hasSubstring (pat : List Char) : List Char → Bool
  | [] => pat.isEmpty
  | c :: rest => pat.isPrefixOf (c :: rest) || hasSubstring pat rest

/-- `get_os_from_image` from `src/main.rs:128-150`: case-insensitive substring
rules on the image name (ASCII lowering, as the image names are ASCII),
evaluated in order, defaulting to `"linux"`. -/
def get_os_from_image (image : String) : String :=
  let low := image.data.map Char.toLower
  let has := fun (pat : String) => hasSubstring pat.data low
  if has "macos" || has "mac-os" || has "sonoma" || has "ventura" || has "monterey" then
    "macOS"
  else if has "ubuntu" || has "debian" || has "mint" || has "linux" then
    "linux"
  else if has "windows" then
    "windows"
  else
    "linux"

/-- `LumeError` from `src/lume/errors.rs` / `src/lume.rs`: transport errors
(`RequestError`, wrapping the HTTP client error) and API errors
(`ApiError`, non-2xx with the response body). The wrapped payloads are
modelled as message strings. -/
inductive LumeError where
  | requestError (msg : String)
  | apiError (msg : String)
deriving DecidableEq

/-- `MedaError` from `src/meda/errors.rs`, same two-kind shape. -/
inductive MedaError where
  | requestError (msg : String)
  | apiError (msg : String)
deriving DecidableEq

/-- `VmInfo` from `src/lume/models.rs` (the macOS backend's VM record).
`disk_size` is inlined as its two fields. -/
structure VmInfo where
  name : String
  state : String
  os : String
  cpu : Nat
  memory : Nat
  diskAllocated : Nat
  diskTotal : Nat
  display : Option String
  ipAddress : Option String
deriving DecidableEq

/-- `VmDetailResponse` from `src/meda/models.rs` (the Linux backend's VM
record). -/
structure VmDetailResponse where
  name : String
  state : String
  ip : Option String
  memory : Option String
  cpus : Option Nat
deriving DecidableEq

/-! ## Deletion (C4 lifecycle layer + backend client retry)

`delete_runner` in `src/main.rs:572-643` has two platform branches of
identical structure: `get_vm(name)`; on error, log and return `Ok(())`
without any delete call; on success, call the client's retrying `delete_vm`.
We model this structure once.  The outcome of each backend HTTP attempt is
supplied by an oracle (`att k` is the outcome of the `k`-th DELETE attempt:
`none` = 2xx, `some msg` = the `ApiError` produced by the closure, which maps
transport errors into `ApiError` as well). -/

/-- A backend HTTP call observable from the lifecycle layer. -/
inductive BackendCall where
  | getVmCall (name : String)
  | deleteVmCall (name : String)
deriving DecidableEq

/-- The retry loop of `LumeClient::delete_vm` (`src/lume/client.rs:149-190`):
`backon` with `ExponentialBuilder::default().with_max_times(5)` performs the
initial attempt plus at most 5 retries (every error produced by the closure
is an `ApiError`, so the `when` filter always retries); a still-failing final
attempt is wrapped as `Retry exhausted`. -/
def delete_vm_go (att : Nat → Option String) : Nat → Nat → Except LumeError Unit
  | k, 0 =>
    match att k with
    | none => .ok ()
    | some e => .error (.apiError ("Retry exhausted: " ++ e))
  | k, left + 1 =>
    match att k with
    | none => .ok ()
    | some _ => delete_vm_go att (k + 1) left

/-- `LumeClient::delete_vm`: initial attempt plus up to 5 retries. -/
def delete_vm (att : Nat → Option String) : Except LumeError Unit :=
  delete_vm_go att 0 5

/-- `delete_runner` from `src/main.rs:572-643` (both platform branches have
this structure): fetch the VM; when the fetch fails, treat the deletion as
successful and issue no DELETE; when the VM is present, delete it with the
retrying `delete_vm` and surface its outcome.  Returns the result together
with the backend calls issued. -/
def delete_runner (getVmResult : Except LumeError VmInfo) (att : Nat → Option String)
    (name : String) : Except String Unit × List BackendCall :=
  match getVmResult with
  | .error _ => (.ok (), [.getVmCall name])
  | .ok _ =>
    match delete_vm att with
    | .ok _ => (.ok (), [.getVmCall name, .deleteVmCall name])
    | .error _ => (.error ("Failed to delete VM '" ++ name ++ "'"), [.getVmCall name, .deleteVmCall name])

/-! ## Wait-for-IP loops (C5, C6)

Both loops are modelled against a time-indexed oracle `g : Nat → _` giving
the backend's reply to a `get_vm` poll issued at second `t` (each `get_vm`
reply is taken as instantaneous; time advances only by the loop's `sleep`).
The fuel argument is an upper bound on the number of polls and never runs
out for the initial fuel chosen. -/

/-- The loop-body condition of `wait_for_vm_ip` in `src/vm_provision.rs`:
returns the IP only when `state == "running"` and `ip_address` is present
and non-empty. -/
def lumeVmReady (r : Except LumeError VmInfo) : Option String :=
  match r with
  | .ok vm =>
    if vm.state = "running" then
      match vm.ipAddress with
      | some ip => if ip = "" then none else some ip
      | none => none
    else none
  | .error _ => none

/-- `wait_for_vm_ip` from `src/vm_provision.rs:215-247`: poll while
`elapsed < timeout`, sleeping 5 s between polls (so the `k`-th poll happens
at `elapsed = 5 * k`); time out otherwise. -/
def wait_for_vm_ip_go (g : Nat → Except LumeError VmInfo) (vmName : String)
    (timeoutSeconds : Nat) : Nat → Nat → Except String String
  | _, 0 => .error ("Timed out waiting for VM " ++ vmName ++ " to be running with IP")
  | k, fuel + 1 =>
    if 5 * k < timeoutSeconds then
      match lumeVmReady (g (5 * k)) with
      | some ip => .ok ip
      | none => wait_for_vm_ip_go g vmName timeoutSeconds (k + 1) fuel
    else .error ("Timed out waiting for VM " ++ vmName ++ " to be running with IP")

/-- `wait_for_vm_ip` (macOS path, `src/vm_provision.rs:215-247`). -/
def wait_for_vm_ip (g : Nat → Except LumeError VmInfo) (vmName : String)
    (timeoutSeconds : Nat) : Except String String :=
  wait_for_vm_ip_go g vmName timeoutSeconds 0 (timeoutSeconds + 1)

/-- The loop-body condition of `MedaClient::wait_for_vm_ip`
(`src/meda/client.rs:270-307`): returns the IP as soon as `ip` is present and
non-empty — the VM state is not consulted. -/
def medaVmReady (r : Except MedaError VmDetailResponse) : Option String :=
  match r with
  | .ok vm =>
    match vm.ip with
    | some ip => if ip = "" then none else some ip
    | none => none
  | .error _ => none

/-- `MedaClient::wait_for_vm_ip` (`src/meda/client.rs:270-307`): the loop
checks `elapsed > timeout` at the top (so the `k`-th poll happens while
`2 * k ≤ timeout`) and sleeps 2 s between polls. -/
def meda_wait_for_vm_ip_go (g : Nat → Except MedaError VmDetailResponse) (vmName : String)
    (timeoutSeconds : Nat) : Nat → Nat → Except MedaError String
  | _, 0 => .error (.apiError ("Timeout waiting for VM " ++ vmName ++ " to get an IP address"))
  | k, fuel + 1 =>
    if timeoutSeconds < 2 * k then
      .error (.apiError ("Timeout waiting for VM " ++ vmName ++ " to get an IP address"))
    else
      match medaVmReady (g (2 * k)) with
      | some ip => .ok ip
      | none => meda_wait_for_vm_ip_go g vmName timeoutSeconds (k + 1) fuel

/-- `MedaClient::wait_for_vm_ip` (Linux path). -/
def meda_wait_for_vm_ip (g : Nat → Except MedaError VmDetailResponse) (vmName : String)
    (timeoutSeconds : Nat) : Except MedaError String :=
  meda_wait_for_vm_ip_go g vmName timeoutSeconds 0 (timeoutSeconds + 1)

/-- The wait-for-IP operation exactly as the specification claim words it
(for comparison with the code's two variants above): poll `get_vm` every
2 seconds, return the IP only once `state == "running"` and the IP is
non-empty, and fail once the caller-supplied bound elapses. -/
def specClaimWaitForIp (g : Nat → Except LumeError VmInfo) (timeoutSeconds : Nat) :
    Nat → Nat → Except String String
  | _, 0 => .error "timeout"
  | k, fuel + 1 =>
    if 2 * k < timeoutSeconds then
      match lumeVmReady (g (2 * k)) with
      | some ip => .ok ip
      | none => specClaimWaitForIp g timeoutSeconds (k + 1) fuel
    else .error "timeout"

/-- Entry point of the claim-side wait. -/
def specClaimWait (g : Nat → Except LumeError VmInfo) (timeoutSeconds : Nat) :
    Except String String :=
  specClaimWaitForIp g timeoutSeconds 0 (timeoutSeconds + 1)

/-! ## Remote executor (C2 component; claims C4, C6, C9)

The executors run subprocesses (`sshpass`/`ssh`/`scp`) and create two host
files (the script temp file and the password file).  Each retried stage's
overall outcome is an oracle input; the model records whether the password
file was created and whether it still exists when the function returns, plus
the wait-for-IP call (with the timeout that was passed). -/

/-- An externally visible step of a provisioning run. -/
inductive ExecEvent where
  | waitForIp (vm : String) (timeoutSeconds : Nat)
deriving DecidableEq

/-- Result of an executor run: the returned value, whether the scratch
password file was created, and whether it still exists on return. -/
structure ExecResult where
  result : Except String String
  pwCreated : Bool
  pwRemains : Bool
  events : List ExecEvent

/-- Scratch password-file name from `create_password_file`
(`src/vm_provision.rs:186-204`):
`format!("sshpass_{}.txt", Instant::now().elapsed().as_millis())`.
The `Instant` is created and queried in the same expression, so the measured
duration — the only invocation-dependent datum in the name — is the
sub-millisecond gap between the two calls. -/
def create_password_file_name (elapsedMillis : Nat) : String :=
  "sshpass_" ++ natDecimal elapsedMillis ++ ".txt"

/-- The same formula, repeated in `run_script_on_vm_meda`
(`src/main.rs:857-861`). -/
def meda_password_file_name (elapsedMillis : Nat) : String :=
  "sshpass_" ++ natDecimal elapsedMillis ++ ".txt"

/-- Oracle for one `run_script_on_vm` invocation (macOS path):
the initial `get_vm`, the retried `run_vm` start (used when the VM is not
running), the `get_vm` polls of the embedded wait loop, and the overall
outcomes of the three retried subprocess stages. -/
structure LumeExecOracle where
  getVm : Except LumeError VmInfo
  startVm : Except String Unit
  poll : Nat → Except LumeError VmInfo
  sshProbe : Except String Unit
  scp : Except String Unit
  runScript : Except String String

/-- `run_script_on_vm` from `src/vm_provision.rs:13-182`.  Control flow:
get the VM (`?` on failure); start it with retry when not running (`?`);
`wait_for_vm_ip` with the caller's `timeout_seconds` (`?`); create the script
and password files; SSH probe, SCP, script execution, each retried and each
propagated with `?` on exhaustion — note that these three `?` returns happen
after the password file was created and before the step-10 cleanup, so the
file remains on those paths; the cleanup runs only on the success path. -/
def run_script_on_vm (o : LumeExecOracle) (vmName : String) (timeoutSeconds : Nat) :
    ExecResult :=
  match o.getVm with
  | .error _ => ⟨.error "get_vm failed", false, false, []⟩
  | .ok vm =>
    match (if vm.state = "running" then .ok () else o.startVm : Except String Unit) with
    | .error e => ⟨.error e, false, false, []⟩
    | .ok _ =>
      match wait_for_vm_ip o.poll vmName timeoutSeconds with
      | .error e => ⟨.error e, false, false, [.waitForIp vmName timeoutSeconds]⟩
      | .ok _ =>
        match o.sshProbe with
        | .error e => ⟨.error e, true, true, [.waitForIp vmName timeoutSeconds]⟩
        | .ok _ =>
          match o.scp with
          | .error e => ⟨.error e, true, true, [.waitForIp vmName timeoutSeconds]⟩
          | .ok _ =>
            match o.runScript with
            | .error e => ⟨.error e, true, true, [.waitForIp vmName timeoutSeconds]⟩
            | .ok out => ⟨.ok out, true, false, [.waitForIp vmName timeoutSeconds]⟩

/-- Oracle for one `run_script_on_vm_meda` invocation (Linux path): overall
outcomes of the SSH probe (12 × 5 s), the SCP copy, and the script run. -/
structure MedaExecOracle where
  sshProbe : Except String Unit
  scp : Except String Unit
  runScript : Except String String

/-- `run_script_on_vm_meda` from `src/main.rs:831-1004`.  Unlike the macOS
variant, every early-failure return calls `remove_file(&password_file_path)`
first (lines 928, 954) and the step-7 cleanup (line 994) runs before the
script's exit status is checked, so the password file is gone on every exit
path after its creation. -/
def run_script_on_vm_meda (o : MedaExecOracle) : ExecResult :=
  match o.sshProbe with
  | .error _ =>
    ⟨.error "SSH connection failed after multiple retries - VM may not be fully booted",
      true, false, []⟩
  | .ok _ =>
    match o.scp with
    | .error e => ⟨.error ("SCP failed: " ++ e), true, false, []⟩
    | .ok _ =>
      match o.runScript with
      | .error e => ⟨.error ("Script execution failed: " ++ e), true, false, []⟩
      | .ok out => ⟨.ok out, true, false, []⟩

/-! ## Runner provisioning (C4 component; claims C6, C7) -/

/-- Oracle for `provision_runner_lume`: the runner and template `get_vm`
outcomes, the retried clone, the re-fetch after cloning, and the embedded
executor's oracle. -/
structure LumeProvisionOracle where
  getVmRunner : Except LumeError VmInfo
  getVmTemplate : Except LumeError VmInfo
  cloneVm : Except LumeError Unit
  getVmAfterClone : Except LumeError VmInfo
  exec : LumeExecOracle

/-- `provision_runner_lume` from `src/main.rs:361-464`: fetch the runner VM;
when absent, require the template to exist and clone it; skip provisioning
when the VM is not `stopped`; otherwise run the provision script through
`run_script_on_vm` with `timeout_seconds = 20` and `run_detached = true`
(`src/main.rs:437-447`). -/
def provision_runner_lume (o : LumeProvisionOracle) (runnerName templateName : String) :
    Except String Unit × List ExecEvent :=
  let afterFetch : Except String VmInfo :=
    match o.getVmRunner with
    | .ok vm => .ok vm
    | .error _ =>
      match o.getVmTemplate with
      | .error _ => .error ("Template '" ++ templateName ++ "' not found. Cannot provision runner.")
      | .ok _ =>
        match o.cloneVm with
        | .error _ => .error ("Failed to clone VM from template '" ++ templateName ++ "'")
        | .ok _ =>
          match o.getVmAfterClone with
          | .ok vm => .ok vm
          | .error _ => .error "get_vm failed"
  match afterFetch with
  | .error e => (.error e, [])
  | .ok vm =>
    if vm.state ≠ "stopped" then (.ok (), [])
    else
      let r := run_script_on_vm o.exec runnerName 20
      (r.result.map fun _ => (), r.events)

/-- Oracle for `provision_runner_meda`: the runner `get_vm`, the start /
run-from-image outcomes, the wait polls, and the embedded executor's oracle. -/
structure MedaProvisionOracle where
  getVm : Except MedaError VmDetailResponse
  startVm : Except MedaError Unit
  runVm : Except MedaError Unit
  poll : Nat → Except MedaError VmDetailResponse
  exec : MedaExecOracle

/-- `provision_runner_meda` from `src/main.rs:466-570`: fetch the runner VM
(start it when present but not running, create-and-run it from the image when
absent), then `meda.wait_for_vm_ip(runner_name, 300)` (`src/main.rs:527-535`),
then `run_script_on_vm_meda` detached. -/
def provision_runner_meda (o : MedaProvisionOracle) (runnerName : String) :
    Except String Unit × List ExecEvent :=
  let ensure : Except String Unit :=
    match o.getVm with
    | .ok vm =>
      if vm.state = "running" then .ok ()
      else
        match o.startVm with
        | .ok _ => .ok ()
        | .error _ => .error "Failed to start VM"
    | .error _ =>
      match o.runVm with
      | .ok _ => .ok ()
      | .error _ => .error "Failed to create and run VM from image"
  match ensure with
  | .error e => (.error e, [])
  | .ok _ =>
    match meda_wait_for_vm_ip o.poll runnerName 300 with
    | .error _ => (.error "Failed to get VM IP address", [.waitForIp runnerName 300])
    | .ok _ =>
      let r := run_script_on_vm_meda o.exec
      (r.result.map fun _ => (), .waitForIp runnerName 300 :: r.events)

/-! ## Control-plane data model and the reconciliation tick (claims C2, C7, C10) -/

/-- `RunnerLogin` from `src/main.rs`. -/
structure RunnerLogin where
  username : String
  password : String
deriving DecidableEq

/-- `RunnerToProvision` from `src/main.rs` (`os` is the image reference). -/
structure RunnerToProvision where
  name : String
  provision_script : String
  os : String
  cpu : Nat
  memory : Nat
  disk : Nat
  login : RunnerLogin
deriving DecidableEq

/-- `RunnerToDelete` from `src/main.rs`. -/
structure RunnerToDelete where
  name : String
deriving DecidableEq

/-- `ApiResponse` from `src/main.rs:65-70`. -/
structure ApiResponse where
  runners_to_provision : List RunnerToProvision
  runners_to_delete : List RunnerToDelete
deriving DecidableEq

/-- Serde deserialization of `ApiResponse` at field-presence level: the
derived deserializer fails when `runners_to_delete` is absent, while
`#[serde(default)]` on `runners_to_provision` (`src/main.rs:66-69`)
substitutes the empty list when that field is absent. -/
def parseApiResponse (provisionField : Option (List RunnerToProvision))
    (deleteField : Option (List RunnerToDelete)) : Option ApiResponse :=
  match deleteField with
  | none => none
  | some d => some { runners_to_provision := provisionField.getD [], runners_to_delete := d }

/-- The `TemplateConfig` the tick builds for a provisioning intent
(`src/main.rs:698-706`): image from the intent's `os` field, no explicit
registry or organization, guest OS classified from the image name. -/
def templateConfigOf (r : RunnerToProvision) : TemplateConfig :=
  { image := r.os, registry := none, organization := none,
    cpu := r.cpu, memory := r.memory, disk := r.disk,
    os := get_os_from_image r.os }

/-- An observable step of one reconciliation tick. -/
inductive TickEvent where
  | deleteAttempt (name : String) (ok : Bool)
  | provisionAttempt (runner template : String) (ok : Bool)
  | createTemplateCall (template : String)
  | report
deriving DecidableEq

/-- Per-intent oracle for the template-resolution and provisioning calls made
by the tick for one `RunnerToProvision`:
`find_matching_template`, `check_template_exists`, `create_template`, and
`provision_runner` (the latter keyed by the template name it is given). -/
structure ProvisionOracle where
  findMatching : Option String
  templateExists : Bool
  createTemplate : Except String Unit
  provision : String → Except String Unit

/-- Template-name resolution inside the tick (`src/main.rs:708-756`): on the
Linux path the image is used directly; on the macOS path a matching template
is searched, then the generated name is checked, then `create_template` is
attempted, falling back to the fixed `"cirun-runner-template"` when creation
fails. -/
def resolveTemplateName (useMeda : Bool) (o : ProvisionOracle) (r : RunnerToProvision) :
    String × List TickEvent :=
  if useMeda then (r.os, [])
  else
    match o.findMatching with
    | some existing => (existing, [])
    | none =>
      let generated := generate_template_name (templateConfigOf r)
      if o.templateExists then (generated, [])
      else
        match o.createTemplate with
        | .ok _ => (generated, [.createTemplateCall generated])
        | .error _ => ("cirun-runner-template", [.createTemplateCall generated])

/-- The provisioning attempt with its fallback (`src/main.rs:770-822`):
provision with the resolved template; on failure, when the template was not
already the fixed `"cirun-runner-template"`, retry exactly once with that
fixed name; a successful attempt is followed by a running-VMs report. -/
def provisionWithFallback (o : ProvisionOracle) (r : RunnerToProvision)
    (templateName : String) : List TickEvent :=
  match o.provision templateName with
  | .ok _ => [.provisionAttempt r.name templateName true, .report]
  | .error _ =>
    .provisionAttempt r.name templateName false ::
      (if templateName ≠ "cirun-runner-template" then
        match o.provision "cirun-runner-template" with
        | .ok _ => [.provisionAttempt r.name "cirun-runner-template" true, .report]
        | .error _ => [.provisionAttempt r.name "cirun-runner-template" false]
      else [])

/-- Full handling of one provisioning intent (`src/main.rs:689-823`). -/
def processProvisionRunner (useMeda : Bool) (o : ProvisionOracle) (r : RunnerToProvision) :
    List TickEvent :=
  let tn := resolveTemplateName useMeda o r
  tn.2 ++ provisionWithFallback o r tn.1

/-- The deletion loop of the tick (`src/main.rs:664-680`): each intent calls
`delete_runner`; a success is followed by a report, a failure is only logged —
the loop continues either way.  `del k` is the outcome of the lifecycle-level
`delete_runner` for the `k`-th intent. -/
def processDeletionsFrom (del : Nat → Except String Unit) (k : Nat) :
    List RunnerToDelete → List TickEvent
  | [] => []
  | r :: rest =>
    (match del k with
     | .ok _ => [.deleteAttempt r.name true, .report]
     | .error _ => [.deleteAttempt r.name false])
      ++ processDeletionsFrom del (k + 1) rest

/-- The provisioning loop of the tick (`src/main.rs:683-824`): each intent is
resolved and provisioned in order; failures are only logged. -/
def processProvisionsFrom (useMeda : Bool) (po : Nat → ProvisionOracle) (k : Nat) :
    List RunnerToProvision → List TickEvent
  | [] => []
  | r :: rest =>
    processProvisionRunner useMeda (po k) r
      ++ processProvisionsFrom useMeda po (k + 1) rest

/-- `manage_runner_lifecycle` from `src/main.rs:645-827`, from the parsed
response onward: when the GET response fails to deserialize (`response.json()
.await?`), the function returns the error before touching any intent; when it
parses, it applies all deletions and then all provisionings and returns
`Ok(json)`. -/
def manage_runner_lifecycle (useMeda : Bool) (parsed : Option ApiResponse)
    (del : Nat → Except String Unit) (po : Nat → ProvisionOracle) :
    Except String ApiResponse × List TickEvent :=
  match parsed with
  | none => (.error "error decoding response body", [])
  | some resp =>
    (.ok resp,
      processDeletionsFrom del 0 resp.runners_to_delete
        ++ processProvisionsFrom useMeda po 0 resp.runners_to_provision)

/-- Names of the deletion attempts in a tick trace, in order. -/
def deletionNames (evs : List TickEvent) : List String :=
  evs.filterMap fun e =>
    match e with
    | .deleteAttempt n _ => some n
    | _ => none

/-- Template names of the provisioning attempts for a given runner in a
trace, in order. -/
def provisionAttemptsFor (evs : List TickEvent) (runner : String) : List String :=
  evs.filterMap fun e =>
    match e with
    | .provisionAttempt n t _ => if n = runner then some t else none
    | _ => none

/-! ## Backend HTTP-client configuration (claim C8) -/

/-- The settings applied to the `reqwest` client builder. -/
structure HttpClientConfig where
  http1Only : Bool
  timeoutSeconds : Nat
  connectTimeoutSeconds : Nat
  poolIdleTimeoutSeconds : Nat
  poolMaxIdlePerHost : Nat
  tcpKeepaliveSeconds : Nat
deriving DecidableEq

/-- `LumeClient::with_base_url` from `src/lume/client.rs:9-43`:
`http1_only()`, `.timeout(Duration::from_secs(MAX_TIMEOUT))` and
`.connect_timeout(Duration::from_secs(CONNECT_TIMEOUT))` with
`MAX_TIMEOUT = 5000` and `CONNECT_TIMEOUT = 6000` — the constants are passed
to `Duration::from_secs`, so the configured durations are 5000 s and 6000 s —
plus `pool_idle_timeout(90 s)`, `pool_max_idle_per_host(10)`,
`tcp_keepalive(60 s)`. -/
def lumeClientConfig : HttpClientConfig :=
  { http1Only := true
    timeoutSeconds := 5000
    connectTimeoutSeconds := 6000
    poolIdleTimeoutSeconds := 90
    poolMaxIdlePerHost := 10
    tcpKeepaliveSeconds := 60 }

/-- Numeric value of a decimal digit character (proof helper). -/
def digitVal (c : Char) : Nat := c.toNat - 48

/-- Value of a most-significant-first decimal digit list (proof helper). -/
def decVal (cs : List Char) : Nat := cs.foldl (fun acc c => 10 * acc + digitVal c) 0

/-! # Theorems -/

/-! ## Helper lemmas about decimal rendering -/

theorem natDigits_all_digits (fuel : Nat) :
    ∀ (n : Nat), ∀ c ∈ natDigits fuel n, ∃ d, d < 10 ∧ c = digitCh d := by
  induction fuel with
  | zero => intro n c hc; simp [natDigits] at hc
  | succ fuel ih =>
    intro n c hc
    by_cases h : n < 10
    · simp [natDigits, h] at hc
      exact ⟨n, h, hc⟩
    · simp [natDigits, h] at hc
      rcases hc with hc | hc
      · exact ih _ c hc
      · exact ⟨n % 10, Nat.mod_lt _ (by norm_num), hc⟩

theorem digitCh_ne_dash (d : Nat) (hd : d < 10) : digitCh d ≠ '-' := by
  interval_cases d <;> decide

theorem natDigits_ne_dash (fuel n : Nat) : ∀ c ∈ natDigits fuel n, c ≠ '-' := by
  intro c hc
  obtain ⟨d, hd, rfl⟩ := natDigits_all_digits fuel n c hc
  exact digitCh_ne_dash d hd

theorem decVal_append_singleton (cs : List Char) (c : Char) :
    decVal (cs ++ [c]) = 10 * decVal cs + digitVal c := by
  simp [decVal, List.foldl_append]

theorem digitVal_digitCh (d : Nat) (hd : d < 10) : digitVal (digitCh d) = d := by
  interval_cases d <;> decide

theorem decVal_natDigits (fuel : Nat) : ∀ n, n < 10 ^ fuel → decVal (natDigits fuel n) = n := by
  induction fuel with
  | zero => intro n h; simp at h; simp [h, natDigits, decVal]
  | succ fuel ih =>
    intro n h
    by_cases h10 : n < 10
    · simp [natDigits, h10, decVal, digitVal_digitCh n h10]
    · have hdiv : n / 10 < 10 ^ fuel := by
        rw [Nat.div_lt_iff_lt_mul (by norm_num)]
        calc n < 10 ^ (fuel + 1) := h
        _ = 10 ^ fuel * 10 := by ring
      simp only [natDigits, if_neg h10]
      rw [decVal_append_singleton, ih _ hdiv, digitVal_digitCh _ (Nat.mod_lt _ (by norm_num))]
      omega

theorem natDigits_inj {a b : Nat} (h : natDigits (a + 1) a = natDigits (b + 1) b) : a = b := by
  have ha : a < 10 ^ (a + 1) :=
    lt_of_lt_of_le (Nat.lt_pow_self (by norm_num) a)
      (Nat.pow_le_pow_right (by norm_num) (Nat.le_succ a))
  have hb : b < 10 ^ (b + 1) :=
    lt_of_lt_of_le (Nat.lt_pow_self (by norm_num) b)
      (Nat.pow_le_pow_right (by norm_num) (Nat.le_succ b))
  calc a = decVal (natDigits (a + 1) a) := (decVal_natDigits _ a ha).symm
  _ = decVal (natDigits (b + 1) b) := by rw [h]
  _ = b := decVal_natDigits _ b hb

theorem append_dash_inj : ∀ (as bs : List Char) {xs ys : List Char},
    (∀ c ∈ as, c ≠ '-') → (∀ c ∈ bs, c ≠ '-') →
    as ++ '-' :: xs = bs ++ '-' :: ys → as = bs ∧ xs = ys := by
  intro as
  induction as with
  | nil =>
    intro bs xs ys _ hb h
    cases bs with
    | nil => simpa using h
    | cons b bs' =>
      simp only [List.nil_append, List.cons_append, List.cons.injEq] at h
      exact absurd h.1.symm (hb b (by simp))
  | cons a as' ih =>
    intro bs xs ys ha hb h
    cases bs with
    | nil =>
      simp only [List.nil_append, List.cons_append, List.cons.injEq] at h
      exact absurd h.1 (ha a (by simp))
    | cons b bs' =>
      simp only [List.cons_append, List.cons.injEq] at h
      obtain ⟨hab, hr⟩ := h
      obtain ⟨e1, e2⟩ := ih bs' (fun c hc => ha c (by simp [hc])) (fun c hc => hb c (by simp [hc])) hr
      exact ⟨by rw [hab, e1], e2⟩

/-! ## Claim C1 — template-name generation -/

/-- C1 (corrected). Template-name generation is deterministic — equal
`TemplateConfig`s yield equal names — and, for configs with the same image,
a difference in `cpu` or `memory` always yields different names (those two
fields appear verbatim between fixed `'-'` separators).  A difference only in
`disk`, `os`, `registry` or `organization` reaches the name solely through
the 4-digit hash and can collide (see the counterexample). -/
theorem generate_template_name_deterministic_and_discriminating :
    (∀ a b : TemplateConfig, a = b →
      generate_template_name a = generate_template_name b) ∧
    (∀ a b : TemplateConfig, a.image = b.image →
      a.cpu ≠ b.cpu ∨ a.memory ≠ b.memory →
      generate_template_name a ≠ generate_template_name b) := by
  constructor
  · intro a b h; rw [h]
  · intro a b himg hne heq
    have hd := congrArg String.data heq
    simp only [generate_template_name, String.data_append, natDecimal, List.append_assoc] at hd
    rw [himg] at hd
    replace hd := List.append_cancel_left hd
    replace hd := List.append_cancel_left hd
    replace hd := List.append_cancel_left hd
    replace hd := List.append_cancel_left hd
    replace hd := List.append_cancel_left hd
    simp only [List.singleton_append] at hd
    obtain ⟨hcpu, hrest⟩ :=
      append_dash_inj _ _ (natDigits_ne_dash _ _) (natDigits_ne_dash _ _) hd
    obtain ⟨hmem, -⟩ :=
      append_dash_inj _ _ (natDigits_ne_dash _ _) (natDigits_ne_dash _ _) hrest
    rcases hne with hne | hne
    · exact hne (natDigits_inj hcpu)
    · exact hne (natDigits_inj hmem)

/-- C1 counterexample: two `TemplateConfig`s that differ (only) in `disk`
but map to the same template name — their SipHash-1-3 values agree modulo
10000, and `disk` does not appear in the name outside the hash. -/
theorem generate_template_name_disk_collision :
    ({ image := "ubuntu", registry := none, organization := none,
       cpu := 2, memory := 4, disk := 52, os := "linux" } : TemplateConfig) ≠
      { image := "ubuntu", registry := none, organization := none,
        cpu := 2, memory := 4, disk := 81, os := "linux" } ∧
    generate_template_name
        { image := "ubuntu", registry := none, organization := none,
          cpu := 2, memory := 4, disk := 52, os := "linux" } =
      generate_template_name
        { image := "ubuntu", registry := none, organization := none,
          cpu := 2, memory := 4, disk := 81, os := "linux" } :=
  ⟨by decide, by rfl⟩

/-- C1 witness: the discrimination part applied at two concrete configs
differing in `cpu`. -/
theorem generate_template_name_discriminating_witness :
    generate_template_name
        { image := "cirunlabs/macos-sequoia-xcode:15.3.1", registry := some "ghcr.io",
          organization := some "cirunlabs", cpu := 4, memory := 8, disk := 100, os := "macOS" } ≠
      generate_template_name
        { image := "cirunlabs/macos-sequoia-xcode:15.3.1", registry := some "ghcr.io",
          organization := some "cirunlabs", cpu := 8, memory := 8, disk := 100, os := "macOS" } :=
  generate_template_name_deterministic_and_discriminating.2 _ _ rfl (Or.inl (by decide))

/-! ## Helper lemmas about the wait-for-IP loops -/

theorem wait_go_sound (g : Nat → Except LumeError VmInfo) (n : String) (t : Nat) :
    ∀ (fuel k : Nat) (ip : String), wait_for_vm_ip_go g n t k fuel = .ok ip →
      ∃ j, 5 * j < t ∧ lumeVmReady (g (5 * j)) = some ip := by
  intro fuel
  induction fuel with
  | zero => intro k ip h; simp [wait_for_vm_ip_go] at h
  | succ fuel ih =>
    intro k ip h
    simp only [wait_for_vm_ip_go] at h
    split at h
    · cases hr : lumeVmReady (g (5 * k)) with
      | some ip' =>
        rw [hr] at h
        exact ⟨k, by assumption, by rw [hr]; simpa using h⟩
      | none =>
        rw [hr] at h
        exact ih _ _ h
    · simp at h

theorem wait_go_timeout (g : Nat → Except LumeError VmInfo) (n : String) (t : Nat)
    (hall : ∀ j, 5 * j < t → lumeVmReady (g (5 * j)) = none) :
    ∀ (fuel k : Nat), wait_for_vm_ip_go g n t k fuel =
      .error ("Timed out waiting for VM " ++ n ++ " to be running with IP") := by
  intro fuel
  induction fuel with
  | zero => intro k; rfl
  | succ fuel ih =>
    intro k
    simp only [wait_for_vm_ip_go]
    by_cases hk : 5 * k < t
    · rw [if_pos hk, hall k hk]
      exact ih (k + 1)
    · rw [if_neg hk]

theorem meda_wait_go_sound (g : Nat → Except MedaError VmDetailResponse) (n : String) (t : Nat) :
    ∀ (fuel k : Nat) (ip : String), meda_wait_for_vm_ip_go g n t k fuel = .ok ip →
      ∃ j, 2 * j ≤ t ∧ medaVmReady (g (2 * j)) = some ip := by
  intro fuel
  induction fuel with
  | zero => intro k ip h; simp [meda_wait_for_vm_ip_go] at h
  | succ fuel ih =>
    intro k ip h
    simp only [meda_wait_for_vm_ip_go] at h
    split at h
    · simp at h
    · cases hr : medaVmReady (g (2 * k)) with
      | some ip' =>
        rw [hr] at h
        exact ⟨k, by omega, by rw [hr]; simpa using h⟩
      | none =>
        rw [hr] at h
        exact ih _ _ h

theorem meda_wait_go_timeout (g : Nat → Except MedaError VmDetailResponse) (n : String) (t : Nat)
    (hall : ∀ j, 2 * j ≤ t → medaVmReady (g (2 * j)) = none) :
    ∀ (fuel k : Nat), meda_wait_for_vm_ip_go g n t k fuel =
      .error (.apiError ("Timeout waiting for VM " ++ n ++ " to get an IP address")) := by
  intro fuel
  induction fuel with
  | zero => intro k; rfl
  | succ fuel ih =>
    intro k
    simp only [meda_wait_for_vm_ip_go]
    by_cases hk : t < 2 * k
    · rw [if_pos hk]
    · rw [if_neg hk, hall k (by omega)]
      exact ih (k + 1)

/-! ## Claim C5 — wait-for-IP semantics -/

/-- C5 counterexample.  On the same backend behaviour (the VM becomes
`running` with an IP from second 2 onward) and the same 4-second bound, the
wait loop as the claim words it (2-second cadence) returns the IP, while the
macOS-path `wait_for_vm_ip` times out — its poll cadence is 5 s, not 2 s.
Moreover the Linux-path wait returns the IP of a VM whose state is
`"stopped"`, never `"running"` — it does not check the state. -/
theorem wait_for_vm_ip_not_two_second_poll :
    specClaimWait
        (fun t => if 2 ≤ t then
          .ok ⟨"runner-1", "running", "macOS", 4, 8192, 0, 102400, none, some "10.0.0.7"⟩
        else
          .ok ⟨"runner-1", "booting", "macOS", 4, 8192, 0, 102400, none, none⟩) 4 =
      .ok "10.0.0.7" ∧
    wait_for_vm_ip
        (fun t => if 2 ≤ t then
          .ok ⟨"runner-1", "running", "macOS", 4, 8192, 0, 102400, none, some "10.0.0.7"⟩
        else
          .ok ⟨"runner-1", "booting", "macOS", 4, 8192, 0, 102400, none, none⟩) "runner-1" 4 =
      .error "Timed out waiting for VM runner-1 to be running with IP" ∧
    meda_wait_for_vm_ip (fun _ => .ok ⟨"runner-1", "stopped", some "10.0.0.5", none, none⟩)
        "runner-1" 300 =
      .ok "10.0.0.5" :=
  ⟨rfl, rfl, rfl⟩

/-- C5 (corrected).  Characterization of the two wait loops: the macOS path
polls at 5-second cadence and yields an IP only when some poll within the
bound saw `state = "running"` with a non-empty IP, and times out when no poll
within the bound is ready; the Linux path polls at 2-second cadence, yields
an IP when some poll within the bound saw a present non-empty IP (state not
consulted), and times out otherwise. -/
theorem wait_for_vm_ip_characterization :
    (∀ (g : Nat → Except LumeError VmInfo) (n : String) (t : Nat) (ip : String),
      wait_for_vm_ip g n t = .ok ip →
        ∃ k, 5 * k < t ∧ lumeVmReady (g (5 * k)) = some ip) ∧
    (∀ (g : Nat → Except LumeError VmInfo) (n : String) (t : Nat),
      (∀ k, 5 * k < t → lumeVmReady (g (5 * k)) = none) →
        wait_for_vm_ip g n t =
          .error ("Timed out waiting for VM " ++ n ++ " to be running with IP")) ∧
    (∀ (g : Nat → Except MedaError VmDetailResponse) (n : String) (t : Nat) (ip : String),
      meda_wait_for_vm_ip g n t = .ok ip →
        ∃ k, 2 * k ≤ t ∧ medaVmReady (g (2 * k)) = some ip) ∧
    (∀ (g : Nat → Except MedaError VmDetailResponse) (n : String) (t : Nat),
      (∀ k, 2 * k ≤ t → medaVmReady (g (2 * k)) = none) →
        meda_wait_for_vm_ip g n t =
          .error (.apiError ("Timeout waiting for VM " ++ n ++ " to get an IP address"))) := by
  refine ⟨?_, ?_, ?_, ?_⟩
  · intro g n t ip h
    exact wait_go_sound g n t (t + 1) 0 ip h
  · intro g n t hall
    exact wait_go_timeout g n t hall (t + 1) 0
  · intro g n t ip h
    exact meda_wait_go_sound g n t (t + 1) 0 ip h
  · intro g n t hall
    exact meda_wait_go_timeout g n t hall (t + 1) 0

/-- C5 witness: the timeout cases applied at concrete never-ready backends. -/
theorem wait_for_vm_ip_characterization_witness :
    wait_for_vm_ip (fun _ => .ok ⟨"vm-w", "booting", "macOS", 2, 2048, 0, 10240, none, none⟩)
        "vm-w" 7 =
      .error "Timed out waiting for VM vm-w to be running with IP" ∧
    meda_wait_for_vm_ip (fun _ => .error (.apiError "404")) "vm-w" 3 =
      .error (.apiError "Timeout waiting for VM vm-w to get an IP address") :=
  ⟨wait_for_vm_ip_characterization.2.1 _ "vm-w" 7 (fun _ _ => rfl),
    wait_for_vm_ip_characterization.2.2.2 _ "vm-w" 3 (fun _ _ => rfl)⟩

/-! ## Claim C3 — idempotent deletion -/

/-- Success of the `delete_vm` retry loop is equivalent to some attempt among
the initial one and the 5 retries succeeding. -/
theorem delete_vm_go_ok_iff (att : Nat → Option String) :
    ∀ (left k : Nat), delete_vm_go att k left = .ok () ↔ ∃ j ≤ left, att (k + j) = none := by
  intro left
  induction left with
  | zero =>
    intro k
    constructor
    · intro hok
      cases h : att k with
      | none => exact ⟨0, Nat.le_refl 0, by simpa using h⟩
      | some e => simp [delete_vm_go, h] at hok
    · intro ⟨j, hj, hnone⟩
      have hj0 : j = 0 := Nat.le_zero.mp hj
      subst hj0
      simp only [Nat.add_zero] at hnone
      simp [delete_vm_go, hnone]
  | succ left ih =>
    intro k
    cases h : att k with
    | none =>
      constructor
      · intro _
        exact ⟨0, by omega, by simpa using h⟩
      · intro _
        simp [delete_vm_go, h]
    | some e =>
      constructor
      · intro hok
        simp only [delete_vm_go, h] at hok
        obtain ⟨j, hj, hnone⟩ := (ih (k + 1)).mp hok
        refine ⟨j + 1, by omega, ?_⟩
        have : k + (j + 1) = k + 1 + j := by omega
        rw [this]
        exact hnone
      · intro ⟨j, hj, hnone⟩
        cases j with
        | zero => simp only [Nat.add_zero] at hnone; rw [hnone] at h; cases h
        | succ j' =>
          simp only [delete_vm_go, h]
          refine (ih (k + 1)).mpr ⟨j', by omega, ?_⟩
          have : k + 1 + j' = k + (j' + 1) := by omega
          rw [this]
          exact hnone

/-- C3 (confirmed). When `get_vm` fails, `delete_runner` returns success and
the only backend call issued is the GET — no DELETE is sent.  When the VM is
present, the DELETE is issued through the retrying `delete_vm`, and the
deletion succeeds exactly when one of its (up to 6) attempts succeeds. -/
theorem delete_runner_idempotent :
    ∀ (g : Except LumeError VmInfo) (att : Nat → Option String) (name : String),
      (∀ e, g = .error e →
        delete_runner g att name = (.ok (), [.getVmCall name])) ∧
      (∀ vm, g = .ok vm →
        (delete_runner g att name).2 = [.getVmCall name, .deleteVmCall name] ∧
        ((delete_runner g att name).1 = .ok () ↔ ∃ j ≤ 5, att j = none)) := by
  intro g att name
  constructor
  · intro e he
    rw [he]; rfl
  · intro vm hvm
    rw [hvm]
    cases hdel : delete_vm att with
    | ok u =>
      constructor
      · simp [delete_runner, hdel]
      · simp only [delete_runner, hdel]
        constructor
        · intro _
          have := (delete_vm_go_ok_iff att 5 0).mp (by cases u; exact hdel)
          simpa using this
        · intro _; trivial
    | error e =>
      constructor
      · simp [delete_runner, hdel]
      · simp only [delete_runner, hdel]
        constructor
        · intro h; cases h
        · intro ⟨j, hj, hnone⟩
          have : delete_vm att = .ok () :=
            (delete_vm_go_ok_iff att 5 0).mpr ⟨j, hj, by simpa using hnone⟩
          rw [this] at hdel
          cases hdel

/-- C3 witness: a 404 on `get_vm` — deleting the absent `"nope"` succeeds
with only the GET call issued (scenario S5 of the specification). -/
theorem delete_runner_idempotent_witness :
    delete_runner (.error (.apiError "404 Not Found")) (fun _ => none) "nope" =
      (.ok (), [.getVmCall "nope"]) :=
  (delete_runner_idempotent _ (fun _ => none) "nope").1 (.apiError "404 Not Found") rfl

/-! ## Claim C4 — scratch-credential hygiene -/

/-- C4 (code bug in `run_script_on_vm`).  On the macOS path, when the SSH
probe fails after its retries, the function returns the error while the
scratch password file still exists — the cleanup of step 10 is only reached
on the success path, although the specification requires deletion on every
exit path (`src/vm_provision.rs:93-98` propagates with `?` before any
cleanup).  The Linux-path `run_script_on_vm_meda` deletes the file on every
exit path, as the claim states. -/
theorem run_script_on_vm_password_file_leak :
    (run_script_on_vm
        { getVm := .ok ⟨"runner-1", "running", "macOS", 4, 8192, 0, 102400, none,
            some "192.168.64.5"⟩,
          startVm := .ok (),
          poll := fun _ => .ok ⟨"runner-1", "running", "macOS", 4, 8192, 0, 102400, none,
            some "192.168.64.5"⟩,
          sshProbe := .error "SSH connection failed: Permission denied",
          scp := .ok (), runScript := .ok "4242" } "runner-1" 20).pwCreated = true ∧
    (run_script_on_vm
        { getVm := .ok ⟨"runner-1", "running", "macOS", 4, 8192, 0, 102400, none,
            some "192.168.64.5"⟩,
          startVm := .ok (),
          poll := fun _ => .ok ⟨"runner-1", "running", "macOS", 4, 8192, 0, 102400, none,
            some "192.168.64.5"⟩,
          sshProbe := .error "SSH connection failed: Permission denied",
          scp := .ok (), runScript := .ok "4242" } "runner-1" 20).pwRemains = true ∧
    (run_script_on_vm
        { getVm := .ok ⟨"runner-1", "running", "macOS", 4, 8192, 0, 102400, none,
            some "192.168.64.5"⟩,
          startVm := .ok (),
          poll := fun _ => .ok ⟨"runner-1", "running", "macOS", 4, 8192, 0, 102400, none,
            some "192.168.64.5"⟩,
          sshProbe := .ok (), scp := .ok (), runScript := .ok "4242" }
        "runner-1" 20).pwRemains = false ∧
    (∀ o : MedaExecOracle,
      (run_script_on_vm_meda o).pwCreated = true ∧ (run_script_on_vm_meda o).pwRemains = false) :=
  ⟨rfl, rfl, rfl, fun o => by
    rcases o with ⟨sp, sc, rs⟩
    cases sp <;> cases sc <;> cases rs <;> exact ⟨rfl, rfl⟩⟩

/-! ## Claim C6 — wait-for-IP bound passed by the lifecycle layer -/

theorem run_script_on_vm_meda_events (o : MedaExecOracle) :
    (run_script_on_vm_meda o).events = [] := by
  rcases o with ⟨sp, sc, rs⟩
  cases sp with
  | error e => rfl
  | ok u =>
    cases sc with
    | error e => rfl
    | ok u2 => cases rs <;> rfl

theorem run_script_on_vm_events (o : LumeExecOracle) (n : String) (ts : Nat) :
    (run_script_on_vm o n ts).events = [] ∨
      (run_script_on_vm o n ts).events = [ExecEvent.waitForIp n ts] := by
  rcases o with ⟨gv, sv, pl, sp, sc, rs⟩
  cases gv with
  | error e => left; rfl
  | ok vm =>
    simp only [run_script_on_vm]
    cases hs : (if vm.state = "running" then (Except.ok () : Except String Unit) else sv) with
    | error e => left; rfl
    | ok u =>
      cases hw : wait_for_vm_ip pl n ts with
      | error e => right; rfl
      | ok ip =>
        cases sp with
        | error e => right; rfl
        | ok u2 =>
          cases sc with
          | error e => right; rfl
          | ok u3 => cases rs <;> (right; rfl)

/-- C6 (corrected).  Every wait-for-IP call a provisioning run performs
carries the bound the lifecycle layer passed: 20 seconds on the macOS path
(`run_script_on_vm` is invoked with `timeout_seconds = 20`,
`src/main.rs:437-447`), 300 seconds on the Linux path
(`meda.wait_for_vm_ip(runner_name, 300)`, `src/main.rs:527-535`). -/
theorem provision_wait_timeout_per_platform :
    ∀ (oL : LumeProvisionOracle) (oM : MedaProvisionOracle) (runnerName templateName : String),
      ((provision_runner_lume oL runnerName templateName).2 = [] ∨
        (provision_runner_lume oL runnerName templateName).2 =
          [ExecEvent.waitForIp runnerName 20]) ∧
      ((provision_runner_meda oM runnerName).2 = [] ∨
        (provision_runner_meda oM runnerName).2 = [ExecEvent.waitForIp runnerName 300]) := by
  intro oL oM rn tn
  constructor
  · rcases oL with ⟨gr, gt, cl, ga, ex⟩
    simp only [provision_runner_lume]
    have hvm : ∀ vm : VmInfo,
        ((if vm.state ≠ "stopped" then ((.ok (), []) : Except String Unit × List ExecEvent)
          else
            ((run_script_on_vm ex rn 20).result.map fun _ => (),
              (run_script_on_vm ex rn 20).events)).2 = [] ∨
          (if vm.state ≠ "stopped" then ((.ok (), []) : Except String Unit × List ExecEvent)
          else
            ((run_script_on_vm ex rn 20).result.map fun _ => (),
              (run_script_on_vm ex rn 20).events)).2 = [ExecEvent.waitForIp rn 20]) := by
      intro vm
      by_cases h : vm.state = "stopped"
      · simp only [h, ne_eq, not_true_eq_false, if_false]
        exact run_script_on_vm_events ex rn 20
      · simp [h]
    cases gr with
    | ok vm => exact hvm vm
    | error e =>
      cases gt with
      | error e2 => left; rfl
      | ok t =>
        cases cl with
        | error e3 => left; rfl
        | ok u =>
          cases ga with
          | error e4 => left; rfl
          | ok vm => exact hvm vm
  · rcases oM with ⟨gv, sv, rv, pl, ex⟩
    simp only [provision_runner_meda]
    have hrest :
        ((match meda_wait_for_vm_ip pl rn 300 with
          | .error _ => ((.error "Failed to get VM IP address", [.waitForIp rn 300]) :
              Except String Unit × List ExecEvent)
          | .ok _ =>
            ((run_script_on_vm_meda ex).result.map fun _ => (),
              .waitForIp rn 300 :: (run_script_on_vm_meda ex).events)).2 = [] ∨
          (match meda_wait_for_vm_ip pl rn 300 with
          | .error _ => ((.error "Failed to get VM IP address", [.waitForIp rn 300]) :
              Except String Unit × List ExecEvent)
          | .ok _ =>
            ((run_script_on_vm_meda ex).result.map fun _ => (),
              .waitForIp rn 300 :: (run_script_on_vm_meda ex).events)).2 =
            [ExecEvent.waitForIp rn 300]) := by
      cases hw : meda_wait_for_vm_ip pl rn 300 with
      | error e => right; rfl
      | ok ip => right; simp [run_script_on_vm_meda_events ex]
    cases gv with
    | ok vm =>
      by_cases h : vm.state = "running"
      · simpa [h] using hrest
      · cases sv with
        | ok u => simpa [h] using hrest
        | error e => simp [h]
    | error e =>
      cases rv with
      | ok u => simpa using hrest
      | error e2 => simp

/-- C6 counterexample: a complete, successful provisioning run on the macOS
path whose only wait-for-IP call carries the bound 20 — not the claimed
300. -/
theorem provision_runner_lume_wait_timeout_twenty :
    (provision_runner_lume
        { getVmRunner := .ok ⟨"runner-1", "stopped", "macOS", 4, 8192, 0, 102400, none, none⟩,
          getVmTemplate := .ok ⟨"tmpl", "stopped", "macOS", 4, 8192, 0, 102400, none, none⟩,
          cloneVm := .ok (),
          getVmAfterClone := .ok ⟨"runner-1", "stopped", "macOS", 4, 8192, 0, 102400, none, none⟩,
          exec := { getVm := .ok ⟨"runner-1", "running", "macOS", 4, 8192, 0, 102400, none,
                        some "192.168.64.5"⟩,
                    startVm := .ok (),
                    poll := fun _ => .ok ⟨"runner-1", "running", "macOS", 4, 8192, 0, 102400,
                        none, some "192.168.64.5"⟩,
                    sshProbe := .ok (), scp := .ok (), runScript := .ok "4242" } }
        "runner-1" "tmpl").2 = [ExecEvent.waitForIp "runner-1" 20] ∧
    ExecEvent.waitForIp "runner-1" 300 ∉
      (provision_runner_lume
          { getVmRunner := .ok ⟨"runner-1", "stopped", "macOS", 4, 8192, 0, 102400, none, none⟩,
            getVmTemplate := .ok ⟨"tmpl", "stopped", "macOS", 4, 8192, 0, 102400, none, none⟩,
            cloneVm := .ok (),
            getVmAfterClone := .ok ⟨"runner-1", "stopped", "macOS", 4, 8192, 0, 102400, none, none⟩,
            exec := { getVm := .ok ⟨"runner-1", "running", "macOS", 4, 8192, 0, 102400, none,
                          some "192.168.64.5"⟩,
                      startVm := .ok (),
                      poll := fun _ => .ok ⟨"runner-1", "running", "macOS", 4, 8192, 0, 102400,
                          none, some "192.168.64.5"⟩,
                      sshProbe := .ok (), scp := .ok (), runScript := .ok "4242" } }
          "runner-1" "tmpl").2 :=
  ⟨rfl, by decide⟩

/-! ## Helper lemmas about the reconciliation tick -/

theorem deletionNames_append (a b : List TickEvent) :
    deletionNames (a ++ b) = deletionNames a ++ deletionNames b := by
  simp [deletionNames, List.filterMap_append]

theorem deletionNames_processDeletionsFrom (del : Nat → Except String Unit) :
    ∀ (ds : List RunnerToDelete) (k : Nat),
      deletionNames (processDeletionsFrom del k ds) = ds.map RunnerToDelete.name := by
  intro ds
  induction ds with
  | nil => intro k; rfl
  | cons r rest ih =>
    intro k
    cases hdel : del k with
    | ok u =>
      have hstep : processDeletionsFrom del k (r :: rest) =
          [TickEvent.deleteAttempt r.name true, TickEvent.report]
            ++ processDeletionsFrom del (k + 1) rest := by
        simp [processDeletionsFrom, hdel]
      rw [hstep, deletionNames_append, ih (k + 1)]
      rfl
    | error e =>
      have hstep : processDeletionsFrom del k (r :: rest) =
          [TickEvent.deleteAttempt r.name false]
            ++ processDeletionsFrom del (k + 1) rest := by
        simp [processDeletionsFrom, hdel]
      rw [hstep, deletionNames_append, ih (k + 1)]
      rfl

theorem deletionNames_provisionWithFallback (o : ProvisionOracle) (r : RunnerToProvision)
    (tn : String) : deletionNames (provisionWithFallback o r tn) = [] := by
  unfold provisionWithFallback
  cases o.provision tn with
  | ok u => simp [deletionNames]
  | error e =>
    by_cases h : tn = "cirun-runner-template"
    · simp [h, deletionNames]
    · cases o.provision "cirun-runner-template" <;> simp [h, deletionNames]

theorem deletionNames_processProvisionRunner (useMeda : Bool) (o : ProvisionOracle)
    (r : RunnerToProvision) : deletionNames (processProvisionRunner useMeda o r) = [] := by
  unfold processProvisionRunner
  rw [deletionNames_append, deletionNames_provisionWithFallback]
  unfold resolveTemplateName
  by_cases hm : useMeda
  · simp [hm, deletionNames]
  · simp only [hm, if_false, Bool.false_eq_true]
    cases o.findMatching with
    | some t => simp [deletionNames]
    | none =>
      by_cases he : o.templateExists
      · simp [he, deletionNames]
      · cases o.createTemplate <;> simp [he, deletionNames]

theorem deletionNames_processProvisionsFrom (useMeda : Bool) (po : Nat → ProvisionOracle) :
    ∀ (ps : List RunnerToProvision) (k : Nat),
      deletionNames (processProvisionsFrom useMeda po k ps) = [] := by
  intro ps
  induction ps with
  | nil => intro k; rfl
  | cons r rest ih =>
    intro k
    simp only [processProvisionsFrom]
    rw [deletionNames_append, deletionNames_processProvisionRunner, ih (k + 1)]
    rfl

theorem provisionWithFallback_attempt_mem (o : ProvisionOracle) (r : RunnerToProvision)
    (tn : String) :
    ∃ ok, TickEvent.provisionAttempt r.name tn ok ∈ provisionWithFallback o r tn := by
  unfold provisionWithFallback
  cases o.provision tn with
  | ok u => exact ⟨true, by simp⟩
  | error e => exact ⟨false, by simp⟩

theorem processProvisionRunner_attempt_mem (useMeda : Bool) (o : ProvisionOracle)
    (r : RunnerToProvision) :
    ∃ tname ok, TickEvent.provisionAttempt r.name tname ok ∈
      processProvisionRunner useMeda o r := by
  obtain ⟨ok, hmem⟩ :=
    provisionWithFallback_attempt_mem o r (resolveTemplateName useMeda o r).1
  exact ⟨_, ok, by unfold processProvisionRunner; exact List.mem_append_right _ hmem⟩

theorem processProvisionsFrom_attempt_mem (useMeda : Bool) (po : Nat → ProvisionOracle) :
    ∀ (ps : List RunnerToProvision) (k : Nat), ∀ r ∈ ps,
      ∃ tname ok, TickEvent.provisionAttempt r.name tname ok ∈
        processProvisionsFrom useMeda po k ps := by
  intro ps
  induction ps with
  | nil => intro k r hr; cases hr
  | cons q rest ih =>
    intro k r hr
    simp only [processProvisionsFrom]
    rcases List.mem_cons.mp hr with hr | hr
    · subst hr
      obtain ⟨tname, ok, hmem⟩ := processProvisionRunner_attempt_mem useMeda (po k) r
      exact ⟨tname, ok, List.mem_append_left _ hmem⟩
    · obtain ⟨tname, ok, hmem⟩ := ih (k + 1) r hr
      exact ⟨tname, ok, List.mem_append_right _ hmem⟩

/-- C7 (confirmed).  When provisioning with a resolved template name fails,
the tick retries exactly once with the fixed `"cirun-runner-template"` and
attempts no template creation from the first provisioning attempt onward;
when the failing name was already the fixed one, no fallback retry occurs. -/
theorem provision_template_fallback :
    ∀ (o : ProvisionOracle) (r : RunnerToProvision) (tn e : String),
      o.provision tn = .error e →
      (tn ≠ "cirun-runner-template" →
        provisionAttemptsFor (provisionWithFallback o r tn) r.name =
          [tn, "cirun-runner-template"] ∧
        ∀ g, TickEvent.createTemplateCall g ∉ provisionWithFallback o r tn) ∧
      (tn = "cirun-runner-template" →
        provisionAttemptsFor (provisionWithFallback o r tn) r.name = [tn]) := by
  intro o r tn e herr
  constructor
  · intro hne
    unfold provisionWithFallback
    rw [herr]
    simp only [ne_eq, hne, not_false_iff, if_true]
    cases o.provision "cirun-runner-template" <;>
      simp [provisionAttemptsFor]
  · intro heq
    subst heq
    unfold provisionWithFallback
    rw [herr]
    simp [provisionAttemptsFor]

/-- C7 witness: a concrete failing derived-template provisioning — the
attempt list for the runner is exactly the derived name followed by the
fixed fallback, with no template-creation call. -/
theorem provision_template_fallback_witness :
    provisionAttemptsFor
        (provisionWithFallback
          { findMatching := none, templateExists := false, createTemplate := .ok (),
            provision := fun t => if t = "cirun-runner-template" then .ok () else .error "clone rejected" }
          { name := "runner-0", provision_script := "echo hi", os := "cirunlabs/ubuntu:22.04",
            cpu := 2, memory := 4, disk := 0, login := { username := "admin", password := "pw" } }
          "cirun-template-x")
        "runner-0" =
      ["cirun-template-x", "cirun-runner-template"] :=
  ((provision_template_fallback
      { findMatching := none, templateExists := false, createTemplate := .ok (),
        provision := fun t => if t = "cirun-runner-template" then .ok () else .error "clone rejected" }
      { name := "runner-0", provision_script := "echo hi", os := "cirunlabs/ubuntu:22.04",
        cpu := 2, memory := 4, disk := 0, login := { username := "admin", password := "pw" } }
      "cirun-template-x" "clone rejected" rfl).1 (by decide)).1

/-! ## Claim C2 — reconciliation error isolation -/

/-- C2 (confirmed).  For every parsed intent list and every combination of
per-intent outcomes — including failing ones — the tick attempts a deletion
for every deletion intent, in order, and a provisioning attempt for every
provisioning intent: no single runner failure aborts the tick. -/
theorem manage_runner_lifecycle_processes_all_intents :
    ∀ (useMeda : Bool) (resp : ApiResponse) (del : Nat → Except String Unit)
      (po : Nat → ProvisionOracle),
      deletionNames (manage_runner_lifecycle useMeda (some resp) del po).2 =
        resp.runners_to_delete.map RunnerToDelete.name ∧
      ∀ r ∈ resp.runners_to_provision, ∃ tname ok,
        TickEvent.provisionAttempt r.name tname ok ∈
          (manage_runner_lifecycle useMeda (some resp) del po).2 := by
  intro u resp del po
  constructor
  · show deletionNames (processDeletionsFrom del 0 resp.runners_to_delete
        ++ processProvisionsFrom u po 0 resp.runners_to_provision) = _
    rw [deletionNames_append, deletionNames_processDeletionsFrom,
      deletionNames_processProvisionsFrom, List.append_nil]
  · intro r hr
    obtain ⟨tname, ok, hmem⟩ :=
      processProvisionsFrom_attempt_mem u po resp.runners_to_provision 0 r hr
    exact ⟨tname, ok, List.mem_append_right _ hmem⟩

/-- C2 witness: a tick whose middle deletion fails and whose only
provisioning intent fails on both attempts — all three deletions are still
attempted in order, and the provisioning intent is still processed. -/
theorem manage_runner_lifecycle_processes_all_intents_witness :
    deletionNames
        (manage_runner_lifecycle false
          (some { runners_to_provision :=
                    [{ name := "runner-0", provision_script := "echo hi",
                       os := "cirunlabs/ubuntu:22.04", cpu := 2, memory := 4, disk := 0,
                       login := { username := "admin", password := "pw" } }],
                  runners_to_delete :=
                    [{ name := "a" }, { name := "b" }, { name := "c" }] })
          (fun k => if k = 1 then .error "delete failed" else .ok ())
          (fun _ =>
            { findMatching := none, templateExists := false,
              createTemplate := .error "pull failed",
              provision := fun _ => .error "clone failed" })).2 =
      ["a", "b", "c"] ∧
    ∃ tname ok, TickEvent.provisionAttempt "runner-0" tname ok ∈
      (manage_runner_lifecycle false
        (some { runners_to_provision :=
                  [{ name := "runner-0", provision_script := "echo hi",
                     os := "cirunlabs/ubuntu:22.04", cpu := 2, memory := 4, disk := 0,
                     login := { username := "admin", password := "pw" } }],
                runners_to_delete :=
                  [{ name := "a" }, { name := "b" }, { name := "c" }] })
        (fun k => if k = 1 then .error "delete failed" else .ok ())
        (fun _ =>
          { findMatching := none, templateExists := false,
            createTemplate := .error "pull failed",
            provision := fun _ => .error "clone failed" })).2 :=
 by
  refine ⟨(manage_runner_lifecycle_processes_all_intents false _ _ _).1, ?_⟩
  exact (manage_runner_lifecycle_processes_all_intents false _ _ _).2
    { name := "runner-0", provision_script := "echo hi",
      os := "cirunlabs/ubuntu:22.04", cpu := 2, memory := 4, disk := 0,
      login := { username := "admin", password := "pw" } }
    (List.mem_singleton_self _)

/-! ## Claim C10 — response-parsing asymmetry -/

/-- C10 (confirmed).  A response body without `runners_to_provision`
deserializes to an `ApiResponse` with an empty provision list; a body without
`runners_to_delete` fails to deserialize, and the tick then returns the
decode error with no intent processed at all. -/
theorem api_response_parse_asymmetry :
    ∀ (p : List RunnerToProvision) (d : List RunnerToDelete) (useMeda : Bool)
      (del : Nat → Except String Unit) (po : Nat → ProvisionOracle),
      parseApiResponse none (some d) =
        some { runners_to_provision := [], runners_to_delete := d } ∧
      parseApiResponse (some p) none = none ∧
      manage_runner_lifecycle useMeda (parseApiResponse (some p) none) del po =
        (.error "error decoding response body", []) := by
  intro p d u del po
  exact ⟨rfl, rfl, rfl⟩

/-! ## Claim C8 — macOS-backend HTTP client configuration -/

/-- C8 (code bug).  The builder does force HTTP/1.1, a 90-second idle-pool
timeout, 10 max idle connections per host and a 60-second TCP keepalive, but
the constants `MAX_TIMEOUT = 5000` and `CONNECT_TIMEOUT = 6000` are passed to
`Duration::from_secs`, so the configured overall and connect timeouts are
5000 s and 6000 s — not the 5 s and 6 s the specification states. -/
theorem lume_client_config_values :
    lumeClientConfig.http1Only = true ∧
    lumeClientConfig.poolIdleTimeoutSeconds = 90 ∧
    lumeClientConfig.poolMaxIdlePerHost = 10 ∧
    lumeClientConfig.tcpKeepaliveSeconds = 60 ∧
    lumeClientConfig.timeoutSeconds = 5000 ∧
    lumeClientConfig.connectTimeoutSeconds = 6000 ∧
    lumeClientConfig.timeoutSeconds ≠ 5 ∧
    lumeClientConfig.connectTimeoutSeconds ≠ 6 := by
  decide

/-! ## Claim C9 — scratch credential-file name collisions -/

/-- C9 (code bug).  The password-file name depends on nothing but
`Instant::now().elapsed().as_millis()` — the duration between creating an
`Instant` and immediately querying it, which is 0 ms — so the two executor
paths, and any two invocations, produce the same `sshpass_0.txt` path rather
than collision-free names. -/
theorem password_file_name_constant :
    (∀ m, create_password_file_name m = meda_password_file_name m) ∧
    create_password_file_name 0 = "sshpass_0.txt" ∧
    meda_password_file_name 0 = "sshpass_0.txt" :=
  ⟨fun _ => rfl, rfl, rfl⟩

end CirunAgent
